import Mathlib

set_option autoImplicit false

namespace MLX90614Spec

/-- Python runtime errors that the driver code can raise and catch: a transport
failure from the bus adapter, a dictionary miss (KeyError), and the TypeError
raised by arithmetic on a non-numeric operand. -/
inductive PyErr where
  | transport
  | keyError
  | typeError
  deriving DecidableEq, Repr

/-- Python values that can reach the arithmetic in degrees_from_sample: the
bytearray produced by read_register (modelled as its list of byte values), or a
number (int or float; floats are modelled as rationals, exact to within the
tolerance the spec grants for floating point). -/
inductive PyVal where
  | bytes (bs : List Nat)
  | int (n : Int)
  | float (q : Rat)
  deriving DecidableEq

/-- Python multiplication with a float right operand: numbers multiply
numerically, while a bytearray times a float raises TypeError (sequence
repetition requires an integer operand). -/
def pyMulFloat : PyVal → Rat → Except PyErr Rat
  | PyVal.bytes _, _ => Except.error PyErr.typeError
  | PyVal.int n, q => Except.ok ((n : Rat) * q)
  | PyVal.float p, q => Except.ok (p * q)

/-- Source lines 91-92: degrees_from_sample computes (x * 0.02) - 273.15 under
Python semantics for whatever value x actually is. -/
def degrees_from_sample (x : PyVal) : Except PyErr Rat :=
  match pyMulFloat x (2/100) with
  | Except.error e => Except.error e
  | Except.ok a => Except.ok (a - 27315/100)

/-- Source line 9: fixed I2C device address. -/
def MLX90614_CHIP_ADDR : Nat := 0x5A

/-- Source line 10: fixed I2C bus speed in Hz. -/
def MLX90614_I2C_SPEED : Nat := 100000

/-- Source lines 12-29: the static register table, in source order. -/
def MLX90614_REGS : List (String × Nat) :=
  [("MLX90614_RAWIR1", 0x04), ("MLX90614_RAWIR2", 0x05),
   ("MLX90614_TA", 0x06), ("MLX90614_TOBJ1", 0x07), ("MLX90614_TOBJ2", 0x08),
   ("MLX90614_TOMAX", 0x20), ("MLX90614_TOMIN", 0x21),
   ("MLX90614_PWMCTRL", 0x22), ("MLX90614_TARANGE", 0x23),
   ("MLX90614_EMISS", 0x24), ("MLX90614_CONFIG", 0x25),
   ("MLX90614_ADDR", 0x2E), ("MLX90614_ID1", 0x3C), ("MLX90614_ID2", 0x3D),
   ("MLX90614_ID3", 0x3E), ("MLX90614_ID4", 0x3F)]

/-- Python dictionary lookup MLX90614_REGS[name]: the mapped address, or none
where Python would raise KeyError. -/
def regsLookup (name : String) : Option Nat :=
  (MLX90614_REGS.find? (fun p => p.1 == name)).map Prod.snd

/-- Source line 31: default report interval. -/
def MLX90614_REPORT_TIME : Rat := 8/10

/-- Source line 32: enforced minimum report interval. -/
def MLX90614_MIN_REPORT_TIME : Rat := 5/10

/-- Behavior of the external bus adapter call i2c_read: given the transmitted
register list and the read length, either the raw response bytes or a transport
failure. -/
def I2CRead : Type := List Nat → Nat → Except PyErr (List Nat)

/-- Source lines 94-98: read_register looks the symbolic name up in
MLX90614_REGS (KeyError when absent) and performs the bus read, returning the
response bytes as a bytearray. -/
def read_register (i2c : I2CRead) (reg_name : String) (read_len : Nat) :
    Except PyErr (List Nat) :=
  match regsLookup reg_name with
  | none => Except.error PyErr.keyError
  | some reg => i2c [reg] read_len

/-- The mutable per-instance fields of the MLX90614 class that the sampling
logic reads and writes. -/
structure MLXState where
  name : String
  report_time : Rat
  temp : Rat
  min_temp : Rat
  max_temp : Rat
  deriving DecidableEq

/-- Failure of configuration validation before the driver starts. -/
inductive ConfigError where
  | belowMinval
  deriving DecidableEq

/-- Modelled from the spec: the host configuration accessor config.getfloat with
a default and a minval floor is host code not present in this repository. Per
the spec, a configured value below the floor fails configuration validation
before the driver starts, and an absent value yields the default. -/
def getfloat (configured : Option Rat) (dflt minval : Rat) :
    Except ConfigError Rat :=
  match configured with
  | none => Except.ok dflt
  | some r =>
      if r < minval then Except.error ConfigError.belowMinval else Except.ok r

/-- Source lines 35-48: construction of an MLX90614 instance as far as the
sampled state is concerned: report_time comes from the validated configuration
(line 42 with the default of line 31 and the floor of line 32), and line 44
assigns temp, min_temp and max_temp all 0.0. -/
def mlx90614_init (name : String) (configured : Option Rat) :
    Except ConfigError MLXState :=
  match getfloat configured MLX90614_REPORT_TIME MLX90614_MIN_REPORT_TIME with
  | Except.error e => Except.error e
  | Except.ok rt =>
      Except.ok { name := name, report_time := rt, temp := 0,
                  min_temp := 0, max_temp := 0 }

/-- Source lines 54-56: setup_minmax stores the externally supplied bounds. -/
def setup_minmax (st : MLXState) (mn mx : Rat) : MLXState :=
  { st with min_temp := mn, max_temp := mx }

/-- Source lines 61-62: get_report_time_delta returns the stored interval. -/
def get_report_time_delta (st : MLXState) : Rat :=
  st.report_time

/-- Value handed back to the host reactor by a timer callback: a concrete next
wake time, the reactor NOW constant, or the reactor NEVER constant (which
unregisters the timer). -/
inductive WakeTime where
  | atTime (t : Rat)
  | now
  | never
  deriving DecidableEq

/-- Observable effects of one sampling invocation: the message passed to
printer.invoke_shutdown when the safety check fires, the pair of arguments the
report callback is invoked with, and whether the read failure was logged. -/
structure SampleEffects where
  shutdownMsg : Option String
  callbackArgs : Option (Rat × Rat)
  errorLogged : Bool
  deriving DecidableEq

/-- Nearest integer with ties to even, the rounding CPython applies both in
round(x, n) and in printf-style float formatting (modelled with exact decimal
semantics; binary representation error is below the tolerance the spec grants
for floating point). -/
def roundHalfEven (q : Rat) : Int :=
  let f : Int := Int.floor q
  let r : Rat := q - (f : Rat)
  if r < 1/2 then f
  else if 1/2 < r then f + 1
  else if f % 2 = 0 then f else f + 1

/-- Decimal rendering of a nonnegative number of tenths, one digit after the
point. -/
def fmtNatTenths (a : Nat) : String :=
  toString (a / 10) ++ "." ++ toString (a % 10)

/-- Decimal rendering of a signed number of tenths. -/
def fmtIntTenths (n : Int) : String :=
  if n < 0 then "-" ++ fmtNatTenths n.natAbs else fmtNatTenths n.natAbs

/-- Python percent-formatting of a float with precision 1, as used by the %0.1f
and %.01f conversions of source line 84: the value in tenths, rounded to the
nearest integer, rendered with one digit after the point. -/
def fmtF1 (q : Rat) : String :=
  fmtIntTenths (roundHalfEven (q * 10))

/-- Source lines 83-85: the message string passed to printer.invoke_shutdown,
formatted from the current temperature and the configured bounds. -/
def shutdown_message (temp mn mx : Rat) : String :=
  "MLX90614 temperature " ++ fmtF1 temp ++ " outside range of "
    ++ fmtF1 mn ++ ":" ++ fmtF1 mx

/-- Source lines 82-89 of _sample_mlx90614, entered with self.temp already
holding the converted value: the safety comparison with its advisory shutdown
request, the report callback with the host-adjusted timestamp, and the next
wake time measured_time + report_time. -/
def safety_check_and_report (st : MLXState) (measured_time : Rat)
    (est : Rat → Rat) : MLXState × SampleEffects × WakeTime :=
  let msg : Option String :=
    if st.temp < st.min_temp ∨ st.temp > st.max_temp
    then some (shutdown_message st.temp st.min_temp st.max_temp)
    else none
  (st,
   { shutdownMsg := msg, callbackArgs := some (est measured_time, st.temp),
     errorLogged := false },
   WakeTime.atTime (measured_time + st.report_time))

/-- Source lines 73-89: one invocation of the timer callback _sample_mlx90614,
given the bus behavior, the monotonic clock value read at line 87, and the host
estimated_print_time translation. The try block covers the register read and
the conversion; on any exception the temperature is reset to 0.0, the error is
logged and the reactor NEVER constant is returned. -/
def sample_mlx90614 (st : MLXState) (i2c : I2CRead) (measured_time : Rat)
    (est : Rat → Rat) : MLXState × SampleEffects × WakeTime :=
  match read_register i2c "MLX90614_TOBJ1" 2 with
  | Except.error _ =>
      ({ st with temp := 0 },
       { shutdownMsg := none, callbackArgs := none, errorLogged := true },
       WakeTime.never)
  | Except.ok sample =>
      match degrees_from_sample (PyVal.bytes sample) with
      | Except.error _ =>
          ({ st with temp := 0 },
           { shutdownMsg := none, callbackArgs := none, errorLogged := true },
           WakeTime.never)
      | Except.ok t =>
          safety_check_and_report { st with temp := t } measured_time est

/-- Source lines 64-71: the best-effort identity probe. Any exception, a
transport failure of the read as well as indexing an empty response, is
swallowed by the bare except; on success the chip ID byte would be logged. -/
def init_mlx90614 (i2c : I2CRead) : Option Nat :=
  match read_register i2c "MLX90614_ID1" 1 with
  | Except.error _ => none
  | Except.ok bs =>
      match bs with
      | [] => none
      | b :: _ => some b

/-- Source lines 50-52: handle_connect runs the probe and then unconditionally
arms the sample timer at reactor.NOW. -/
def handle_connect (i2c : I2CRead) : Option Nat × WakeTime :=
  (init_mlx90614 i2c, WakeTime.now)

/-- Python round(x, 2) as used by get_status. -/
def pyRound2 (q : Rat) : Rat :=
  (roundHalfEven (q * 100) : Rat) / 100

/-- Source lines 107-110: get_status returns the last stored temperature
rounded to two places; the eventtime argument is accepted but unused. -/
def get_status (st : MLXState) (eventtime : Rat) : Rat :=
  pyRound2 st.temp

/-- One scheduler tick: the bus outcome the sampling read would observe, and
the monotonic time at which the tick runs. -/
structure Tick where
  busResult : Except PyErr (List Nat)
  time : Rat

/-- The host scheduler loop driving the sample timer: each tick runs
sample_mlx90614, and the loop continues past a tick only when the callback
returns a concrete wake time; returning the reactor NEVER constant stops all
further invocations of this instance. -/
def pollerTrace (est : Rat → Rat) : MLXState → List Tick →
    List (SampleEffects × MLXState)
  | _, [] => []
  | st, tk :: rest =>
      match sample_mlx90614 st (fun _ _ => tk.busResult) tk.time est with
      | (st2, eff, WakeTime.never) => [(eff, st2)]
      | (st2, eff, _) => (eff, st2) :: pollerTrace est st2 rest

/-- Whether pat occurs at the head of l. -/
def hasPrefixChars : List Char → List Char → Bool
  | [], _ => true
  | _ :: _, [] => false
  | a :: as, b :: bs => a == b && hasPrefixChars as bs

/-- Whether pat occurs contiguously somewhere in l. -/
def hasSubChars (pat : List Char) : List Char → Bool
  | [] => hasPrefixChars pat []
  | c :: cs => hasPrefixChars pat (c :: cs) || hasSubChars pat cs

/-- Whether pat occurs as a contiguous substring of s. -/
def strContains (s pat : String) : Bool :=
  hasSubChars pat.data s.data

theorem hasPrefixChars_append (p t : List Char) :
    hasPrefixChars p (p ++ t) = true := by
  induction p with
  | nil => rfl
  | cons a as ih => simp [hasPrefixChars, ih]

theorem hasSubChars_nil (l : List Char) : hasSubChars [] l = true := by
  cases l with
  | nil => rfl
  | cons c cs => rfl

theorem hasSubChars_append (l1 p l2 : List Char) :
    hasSubChars p (l1 ++ (p ++ l2)) = true := by
  induction l1 with
  | nil =>
      cases p with
      | nil => exact hasSubChars_nil l2
      | cons a as =>
          simp only [List.nil_append, hasSubChars, Bool.or_eq_true]
          exact Or.inl (hasPrefixChars_append (a :: as) l2)
  | cons c cs ih =>
      simp only [List.cons_append, hasSubChars, Bool.or_eq_true]
      exact Or.inr ih

theorem strContains_of_data (s pat : String) (l1 l2 : List Char)
    (h : s.data = l1 ++ (pat.data ++ l2)) : strContains s pat = true := by
  unfold strContains
  rw [h]
  exact hasSubChars_append l1 pat.data l2

theorem roundHalfEven_intCast (n : Int) : roundHalfEven ((n : Rat)) = n := by
  unfold roundHalfEven
  rw [Int.floor_intCast]
  norm_num

theorem fmtF1_eval (q : Rat) (n : Int) (h : q * 10 = (n : Rat)) :
    fmtF1 q = fmtIntTenths n := by
  unfold fmtF1
  rw [h, roundHalfEven_intCast]

theorem fmtF1_305 : fmtF1 305 = "305.0" :=
  (fmtF1_eval 305 3050 (by norm_num)).trans (by decide)

theorem fmtF1_zero : fmtF1 0 = "0.0" :=
  (fmtF1_eval 0 0 (by norm_num)).trans (by decide)

theorem fmtF1_300 : fmtF1 300 = "300.0" :=
  (fmtF1_eval 300 3000 (by norm_num)).trans (by decide)

/-- C1: the claim describes the branch for a successful read plus conversion as
the spec states it; evaluating the code shows that branch is never taken. At a
bus read of MLX90614_TOBJ1 that succeeds with two bytes, the routine still
takes the exception path because the bytearray reaches the multiplication: the
temperature is reset to 0.0, the callback is not invoked, the safety check is
not consulted, and the reactor NEVER constant is returned instead of the sample
time plus the report interval. -/
theorem C1_success_path_never_taken :
    sample_mlx90614
      { name := "mlx90614", report_time := 4/5, temp := 0, min_temp := 0,
        max_temp := 300 }
      (fun _ _ => Except.ok [0x4E, 0x74]) 10 id =
    ({ name := "mlx90614", report_time := 4/5, temp := 0, min_temp := 0,
       max_temp := 300 },
     { shutdownMsg := none, callbackArgs := none, errorLogged := true },
     WakeTime.never) := rfl

/-- C2: when the main sampling read raises a transport error, the stored
temperature becomes the sentinel 0.0, the error is logged, no callback and no
shutdown request are issued, the reactor NEVER constant is returned, and the
scheduler loop performs no further invocation of this instance no matter how
many ticks were still planned. -/
theorem C2_transport_failure_halts (st : MLXState) (e : PyErr) (mt : Rat)
    (est : Rat → Rat) (t : Rat) (rest : List Tick) :
    sample_mlx90614 st (fun _ _ => Except.error e) mt est =
      ({ st with temp := 0 },
       { shutdownMsg := none, callbackArgs := none, errorLogged := true },
       WakeTime.never) ∧
    pollerTrace est st ({ busResult := Except.error e, time := t } :: rest) =
      [({ shutdownMsg := none, callbackArgs := none, errorLogged := true },
        { st with temp := 0 })] :=
  ⟨rfl, rfl⟩

/-- C3 counterexample: for an instance configured with the name my_sensor,
bounds 0 and 300 and a measured temperature of 305, the shutdown request is
issued with the message of lines 83-85, and that message does not contain the
instance name my_sensor anywhere: the format string only carries the fixed
sensor type label. -/
theorem C3_message_omits_instance_name :
    (safety_check_and_report
       { name := "my_sensor", report_time := 4/5, temp := 305, min_temp := 0,
         max_temp := 300 } 10 id).2.1.shutdownMsg =
      some (shutdown_message 305 0 300) ∧
    strContains (shutdown_message 305 0 300) "my_sensor" = false := by
  constructor
  · show (if (305 : Rat) < 0 ∨ (305 : Rat) > 300
          then some (shutdown_message 305 0 300) else none) =
        some (shutdown_message 305 0 300)
    rw [if_pos]
    right
    norm_num
  · show strContains ("MLX90614 temperature " ++ fmtF1 305 ++ " outside range of "
        ++ fmtF1 0 ++ ":" ++ fmtF1 300) "my_sensor" = false
    rw [fmtF1_305, fmtF1_zero, fmtF1_300]
    decide

/-- C3 amended: given a converted temperature held in the state, the shutdown
capability is invoked exactly once if and only if the temperature is strictly
below min_temp or strictly above max_temp; the message contains the sensor type
label MLX90614, the formatted measured value and both formatted bounds (but not
the configured instance name); and the sampling cycle continues normally: the
callback is still invoked with the adjusted timestamp and the temperature, and
the next wake time is still the sample time plus the report interval. -/
theorem C3_safety_check_amended (st : MLXState) (mt : Rat) (est : Rat → Rat) :
    safety_check_and_report st mt est =
      (st,
       { shutdownMsg :=
           if st.temp < st.min_temp ∨ st.temp > st.max_temp
           then some (shutdown_message st.temp st.min_temp st.max_temp)
           else none,
         callbackArgs := some (est mt, st.temp), errorLogged := false },
       WakeTime.atTime (mt + st.report_time)) ∧
    strContains (shutdown_message st.temp st.min_temp st.max_temp)
      "MLX90614" = true ∧
    strContains (shutdown_message st.temp st.min_temp st.max_temp)
      (fmtF1 st.temp) = true ∧
    strContains (shutdown_message st.temp st.min_temp st.max_temp)
      (fmtF1 st.min_temp) = true ∧
    strContains (shutdown_message st.temp st.min_temp st.max_temp)
      (fmtF1 st.max_temp) = true := by
  have hsplit : "MLX90614 temperature ".data =
      "MLX90614".data ++ " temperature ".data := rfl
  refine ⟨rfl, ?_, ?_, ?_, ?_⟩
  · refine strContains_of_data _ _ []
      (" temperature ".data ++ ((fmtF1 st.temp).data ++ (" outside range of ".data
        ++ ((fmtF1 st.min_temp).data ++ (":".data ++ (fmtF1 st.max_temp).data))))) ?_
    simp [shutdown_message, String.data_append, List.append_assoc, hsplit]
  · refine strContains_of_data _ _ "MLX90614 temperature ".data
      (" outside range of ".data ++ ((fmtF1 st.min_temp).data
        ++ (":".data ++ (fmtF1 st.max_temp).data))) ?_
    simp [shutdown_message, String.data_append, List.append_assoc]
  · refine strContains_of_data _ _
      ("MLX90614 temperature ".data ++ ((fmtF1 st.temp).data
        ++ " outside range of ".data))
      (":".data ++ (fmtF1 st.max_temp).data) ?_
    simp [shutdown_message, String.data_append, List.append_assoc]
  · refine strContains_of_data _ _
      ("MLX90614 temperature ".data ++ ((fmtF1 st.temp).data
        ++ (" outside range of ".data ++ ((fmtF1 st.min_temp).data ++ ":".data))))
      [] ?_
    simp [shutdown_message, String.data_append, List.append_assoc]

/-- C4: the conversion computes x * 0.02 - 273.15 exactly for every numeric
input, whether the raw unsigned sample arrives as a machine integer or as a
float, with no failure mode; as a pure function it has no side effects. -/
theorem C4_degrees_conversion (x : Nat) (n : Int) (q : Rat) :
    degrees_from_sample (PyVal.int (x : Int)) =
      Except.ok ((x : Rat) * (2/100) - 27315/100) ∧
    degrees_from_sample (PyVal.int n) =
      Except.ok ((n : Rat) * (2/100) - 27315/100) ∧
    degrees_from_sample (PyVal.float q) =
      Except.ok (q * (2/100) - 27315/100) := by
  refine ⟨?_, rfl, rfl⟩
  simp [degrees_from_sample, pyMulFloat]

/-- C5: a configured interval below the 0.5 floor fails configuration
validation before the driver starts; an interval at or above the floor is
accepted unchanged and becomes the report_time that get_report_time_delta
returns; an absent value defaults to 0.8. -/
theorem C5_report_time_validation (r : Rat) (name : String) :
    getfloat (some r) MLX90614_REPORT_TIME MLX90614_MIN_REPORT_TIME =
      (if r < MLX90614_MIN_REPORT_TIME then Except.error ConfigError.belowMinval
       else Except.ok r) ∧
    mlx90614_init name (some r) =
      (if r < MLX90614_MIN_REPORT_TIME then Except.error ConfigError.belowMinval
       else Except.ok { name := name, report_time := r, temp := 0, min_temp := 0,
                        max_temp := 0 }) ∧
    mlx90614_init name none =
      Except.ok { name := name, report_time := MLX90614_REPORT_TIME, temp := 0,
                  min_temp := 0, max_temp := 0 } ∧
    MLX90614_REPORT_TIME = 8/10 ∧ MLX90614_MIN_REPORT_TIME = 5/10 ∧
    (∀ st : MLXState, get_report_time_delta st = st.report_time) := by
  refine ⟨rfl, ?_, rfl, rfl, rfl, fun st => rfl⟩
  by_cases h : r < MLX90614_MIN_REPORT_TIME
  · simp [mlx90614_init, getfloat, h]
  · simp [mlx90614_init, getfloat, h]

/-- C6: whatever the identity probe sees, a transport error, an empty response
whose indexing would raise, or a successful read, the failure is swallowed
inside the probe and handle_connect always arms the sample timer at the
reactor NOW constant. -/
theorem C6_probe_failure_never_blocks_schedule (i2c : I2CRead) (e : PyErr) :
    (handle_connect i2c).2 = WakeTime.now ∧
    init_mlx90614 (fun _ _ => Except.error e) = none ∧
    init_mlx90614 (fun _ _ => Except.ok []) = none ∧
    (handle_connect (fun _ _ => Except.error e)).2 = WakeTime.now :=
  ⟨rfl, rfl, rfl, rfl⟩

/-- C7: the lookup returns the fixed table addresses (object temperature
channel 1 at 0x07, ambient at 0x06, the identity registers at 0x3C through
0x3F), the connection constants are the 0x5A device address and the 100 kHz
bus speed, every successful lookup result is an entry of the static table, and
a name absent from the table makes read_register fail with the KeyError of a
dictionary miss. -/
theorem C7_register_lookup (name : String) (i2c : I2CRead) (len : Nat) :
    regsLookup "MLX90614_TOBJ1" = some 0x07 ∧
    regsLookup "MLX90614_TA" = some 0x06 ∧
    regsLookup "MLX90614_ID1" = some 0x3C ∧
    regsLookup "MLX90614_ID2" = some 0x3D ∧
    regsLookup "MLX90614_ID3" = some 0x3E ∧
    regsLookup "MLX90614_ID4" = some 0x3F ∧
    MLX90614_CHIP_ADDR = 0x5A ∧ MLX90614_I2C_SPEED = 100000 ∧
    (∀ addr, regsLookup name = some addr → (name, addr) ∈ MLX90614_REGS) ∧
    (regsLookup name = none →
       read_register i2c name len = Except.error PyErr.keyError) := by
  refine ⟨rfl, rfl, rfl, rfl, rfl, rfl, rfl, rfl, ?_, ?_⟩
  · intro addr h
    unfold regsLookup at h
    cases hf : MLX90614_REGS.find? (fun p => p.1 == name) with
    | none => rw [hf] at h; simp at h
    | some pr =>
        rw [hf] at h
        simp at h
        have hmem := List.mem_of_find?_eq_some hf
        have hpred := List.find?_some hf
        have hname : pr.1 = name := by simpa using hpred
        have heq : (name, addr) = pr := by
          cases pr with
          | mk a b => simp_all
        rw [heq]
        exact hmem
  · intro h
    simp [read_register, h]

/-- C7 witness: the unknown name MLX90614_BOGUS is not in the table and
read_register fails on it with KeyError even though the bus itself would have
answered. -/
theorem C7_register_lookup_witness :
    regsLookup "MLX90614_BOGUS" = none ∧
    read_register (fun _ _ => Except.ok []) "MLX90614_BOGUS" 2 =
      Except.error PyErr.keyError := by
  constructor
  · rfl
  · exact (C7_register_lookup "MLX90614_BOGUS" (fun _ _ => Except.ok []) 2).2.2.2.2.2.2.2.2.2 rfl

/-- C8: get_status returns the stored temperature rounded to two places, the
result is the same for any two query times, and it depends on nothing but the
stored temperature field; as a pure function it mutates no state. -/
theorem C8_get_status_readonly (st : MLXState) (t1 t2 mn mx rt : Rat)
    (nm : String) :
    get_status st t1 = pyRound2 st.temp ∧
    get_status st t1 = get_status st t2 ∧
    get_status { name := nm, report_time := rt, temp := st.temp, min_temp := mn,
                 max_temp := mx } t1 = get_status st t1 :=
  ⟨rfl, rfl, rfl⟩

/-- C9: converting the bytearray that read_register returns always raises
TypeError, so even when the bus read succeeds, with any response whatsoever,
the sampling routine takes the exception branch: temperature 0.0, no shutdown
consultation, no callback, error logged, and the reactor NEVER constant
returned. -/
theorem C9_bytearray_sample_always_faults (bs : List Nat) (st : MLXState)
    (response : List Nat) (mt : Rat) (est : Rat → Rat) :
    degrees_from_sample (PyVal.bytes bs) = Except.error PyErr.typeError ∧
    sample_mlx90614 st (fun _ _ => Except.ok response) mt est =
      ({ st with temp := 0 },
       { shutdownMsg := none, callbackArgs := none, errorLogged := true },
       WakeTime.never) :=
  ⟨rfl, rfl⟩

/-- C10: every state produced by construction has temperature, min_temp and
max_temp all equal to 0.0, and under those default bounds the safety comparison
of the sampling routine requests a shutdown exactly for the temperatures
different from 0.0. -/
theorem C10_default_bounds_shutdown (name : String) (cfg : Option Rat)
    (st : MLXState) (h : mlx90614_init name cfg = Except.ok st) :
    st.temp = 0 ∧ st.min_temp = 0 ∧ st.max_temp = 0 ∧
    (∀ (t mt : Rat) (est : Rat → Rat),
       ((safety_check_and_report { st with temp := t } mt est).2.1.shutdownMsg.isSome
         = true ↔ t ≠ 0)) := by
  have hst : st.min_temp = 0 ∧ st.max_temp = 0 ∧ st.temp = 0 := by
    cases cfg with
    | none =>
        simp [mlx90614_init, getfloat] at h
        cases h
        simp
    | some r =>
        by_cases hr : r < MLX90614_MIN_REPORT_TIME
        · simp [mlx90614_init, getfloat, hr] at h
        · simp [mlx90614_init, getfloat, hr] at h
          cases h
          simp
  refine ⟨hst.2.2, hst.1, hst.2.1, ?_⟩
  intro t mt est
  show (if t < st.min_temp ∨ t > st.max_temp
        then some (shutdown_message t st.min_temp st.max_temp)
        else none).isSome = true ↔ t ≠ 0
  rw [hst.1, hst.2.1]
  rcases lt_trichotomy t 0 with h1 | h1 | h1
  · simp [if_pos (Or.inl h1), ne_of_lt h1]
  · subst h1
    simp
  · simp [if_pos (Or.inr h1), ne_of_gt h1]

/-- C10 witness: a freshly constructed instance has all three fields 0.0, and a
converted temperature of 305 under the default bounds triggers the shutdown
request. -/
theorem C10_default_bounds_shutdown_witness :
    (safety_check_and_report
       { name := "mlx90614", report_time := MLX90614_REPORT_TIME, temp := 305,
         min_temp := 0, max_temp := 0 } 10 id).2.1.shutdownMsg.isSome = true := by
  have h := C10_default_bounds_shutdown "mlx90614" none
      { name := "mlx90614", report_time := MLX90614_REPORT_TIME, temp := 0,
        min_temp := 0, max_temp := 0 } rfl
  exact (h.2.2.2 305 10 id).mpr (by norm_num)

end MLX90614Spec
